import Mathlib

/-!
Status LED controller (RgbLed_WS2812) and board constants

A shallow embedding of `RgbLed_WS2812.cpp` / `RgbLed_WS2812.h` and of the
constants of `BoardPins.h`.

* `uint8_t` and `uint32_t` values are natural numbers; every place where the
  C++ code narrows or may wrap is written with `u8` / `u32`.
* The object state is the structure `RgbLed`; each member function becomes a
  function from the state before the call to the state after it.
* `millis()` is an input: every call of `millis()` in the source is one clock
  argument of the embedded function.  `tick` reads the clock itself (`now`)
  and, when it starts a pulse, `startHeartbeatPulse_` reads it a second time.
* The pixel `_leds[0]` together with `FastLED.show()` is the field `leds0`:
  the colour last pushed to the physical LED.
-/

namespace BoardPins

/-- Number of opto-isolated digital inputs, `BoardPins::DI_COUNT`. -/
def DI_COUNT : Nat := 8

/-- Number of relays behind the expander, `BoardPins::RELAY_COUNT`. -/
def RELAY_COUNT : Nat := 8

end BoardPins

/-- Narrowing to `uint8_t`. -/
def u8 (x : Nat) : Nat := x % 256

/-- Wrapping to `uint32_t`. -/
def u32 (x : Nat) : Nat := x % 4294967296

/-- Subtraction of two `uint32_t` values, wrapping modulo 2^32. -/
def sub32 (a b : Nat) : Nat := u32 (u32 a + (4294967296 - u32 b))

/-- The deadline test of `tick`: `(int32_t)(now - deadline) >= 0`.  The cast of
a `uint32_t` to `int32_t` is non-negative exactly when the value is below
2^31. -/
def timeReached (now deadline : Nat) : Bool :=
  decide (sub32 now deadline < 2147483648)

/-- An RGB triple as handed to the pixel. -/
abbrev Colour := Nat × Nat × Nat

/-- The data members of class `RgbLed` (the leading underscore of the C++
names is dropped); `leds0` is `_leds[0]` as last shown. -/
structure RgbLed where
  r : Nat
  g : Nat
  b : Nat
  leds0 : Colour
  idle : Bool
  heartbeatEnabled : Bool
  inPulse : Bool
  nextBeatMs : Nat
  beatOffMs : Nat
deriving DecidableEq, Repr

namespace RgbLed

/-- The table `PALETTE[8][3]`. -/
def PALETTE : List (List Nat) :=
  [ [255,   0,   0],
    [255, 128,   0],
    [255, 255,   0],
    [128, 255,   0],
    [  0, 255,   0],
    [  0, 255, 255],
    [  0,   0, 255],
    [255,   0, 255] ]

/-- The entry `PALETTE[i][c]`. -/
def palette (i c : Nat) : Nat := (PALETTE.getD i []).getD c 0

/-- The constant `HEARTBEAT_PERIOD_MS`. -/
def HEARTBEAT_PERIOD_MS : Nat := 5000

/-- The constant `HEARTBEAT_PULSE_MS`. -/
def HEARTBEAT_PULSE_MS : Nat := 120

/-- The current colour `(_r, _g, _b)`. -/
def colour (s : RgbLed) : Colour := (s.r, s.g, s.b)

/-- The member `show()`: push the current colour to the LED. -/
def showLed (s : RgbLed) : RgbLed :=
  { s with leds0 := (s.r, s.g, s.b) }

/-- The member `off()`. -/
def off (s : RgbLed) : RgbLed :=
  showLed { s with r := 0, g := 0, b := 0 }

/-- The member `setAllOnWhite()`. -/
def setAllOnWhite (s : RgbLed) : RgbLed :=
  showLed { s with r := 255, g := 255, b := 255 }

/-- The object as constructed, with the default member initialisers of the
header; the pixel buffer has no initialiser and is a parameter. -/
def fresh (px : Colour) : RgbLed :=
  { r := 0, g := 0, b := 0, leds0 := px, idle := true, heartbeatEnabled := true,
    inPulse := false, nextBeatMs := 0, beatOffMs := 0 }

/-- The member `begin()`; `millis` is the clock value it reads. -/
def begin (s : RgbLed) (millis : Nat) : RgbLed :=
  { off s with nextBeatMs := u32 (millis + HEARTBEAT_PERIOD_MS) }

/-- The member `setForRelay(relayIndex)`. -/
def setForRelay (s : RgbLed) (relayIndex : Nat) : RgbLed :=
  let idx := u8 (relayIndex &&& 0x07)
  showLed { s with r := palette idx 0, g := palette idx 1, b := palette idx 2,
                   idle := false, inPulse := false }

/-- The member `setRGB(r, g, b)`. -/
def setRGB (s : RgbLed) (r g b : Nat) : RgbLed :=
  showLed { s with r := r, g := g, b := b,
                   idle := (r == 0 && g == 0 && b == 0), inPulse := false }

/-- The local `full` of `setForMask`. -/
def fullMask : Nat :=
  u8 (sub32 (u32 (1 <<< (if BoardPins.RELAY_COUNT ≥ 8 then 8 else BoardPins.RELAY_COUNT))) 1)

/-- The locals `r`, `g`, `b` (uint32_t) and `count` (uint8_t) of the blending
loop of `setForMask`. -/
structure Blend where
  r : Nat
  g : Nat
  b : Nat
  count : Nat
deriving DecidableEq, Repr

/-- One iteration of the blending loop, for loop index `i`. -/
def blendStep (mask : Nat) (acc : Blend) (i : Nat) : Blend :=
  if mask &&& u32 (1 <<< i) ≠ 0 then
    { r := u32 (acc.r + palette i 0),
      g := u32 (acc.g + palette i 1),
      b := u32 (acc.b + palette i 2),
      count := u8 (acc.count + 1) }
  else acc

/-- The blending loop: `i` runs from 0 while `i < RELAY_COUNT && i < 8`. -/
def blendLoop (mask : Nat) : Blend :=
  (List.range (min BoardPins.RELAY_COUNT 8)).foldl (blendStep mask) ⟨0, 0, 0, 0⟩

/-- The member `setForMask(mask)`. -/
def setForMask (s : RgbLed) (mask : Nat) : RgbLed :=
  if mask = 0 then
    off { s with idle := true, inPulse := false }
  else if mask = fullMask then
    setAllOnWhite { s with idle := false, inPulse := false }
  else
    let acc := blendLoop mask
    if acc.count = 0 then
      off { s with idle := true }
    else
      showLed { s with r := u8 (acc.r / acc.count),
                       g := u8 (acc.g / acc.count),
                       b := u8 (acc.b / acc.count),
                       idle := false, inPulse := false }

/-- The inline member `setHeartbeatEnabled(on)`. -/
def setHeartbeatEnabled (s : RgbLed) (enable : Bool) : RgbLed :=
  { s with heartbeatEnabled := enable }

/-- The member `startHeartbeatPulse_()`; `millis` is the clock value it reads.
It writes white to the pixel directly and does not touch `_r`, `_g`, `_b`. -/
def startHeartbeatPulse_ (s : RgbLed) (millis : Nat) : RgbLed :=
  { s with inPulse := true,
           beatOffMs := u32 (millis + HEARTBEAT_PULSE_MS),
           leds0 := (255, 255, 255) }

/-- The member `tick()`.  `now` is the value of `millis()` read by `tick`
itself; `now2` is the value read by `startHeartbeatPulse_` when a pulse is
started. -/
def tick (s : RgbLed) (now now2 : Nat) : RgbLed :=
  if !s.heartbeatEnabled || !s.idle then s
  else if s.inPulse then
    if timeReached now s.beatOffMs then
      { off { s with inPulse := false } with
        nextBeatMs := u32 (now + HEARTBEAT_PERIOD_MS) }
    else s
  else if timeReached now s.nextBeatMs then
    startHeartbeatPulse_ s now2
  else s

/-- A call of one public operation, with its arguments and the clock values
it reads. -/
inductive Op where
  | off
  | setAllOnWhite
  | setForRelay (relayIndex : Nat)
  | setRGB (r g b : Nat)
  | setForMask (mask : Nat)
  | setHeartbeatEnabled (enable : Bool)
  | tick (now now2 : Nat)
deriving DecidableEq, Repr

/-- The state after one public operation. -/
def step (s : RgbLed) : Op → RgbLed
  | .off => s.off
  | .setAllOnWhite => s.setAllOnWhite
  | .setForRelay i => s.setForRelay i
  | .setRGB r g b => s.setRGB r g b
  | .setForMask m => s.setForMask m
  | .setHeartbeatEnabled enable => s.setHeartbeatEnabled enable
  | .tick now now2 => s.tick now now2

/-- The state after a sequence of public operations. -/
def run (s : RgbLed) (ops : List Op) : RgbLed := ops.foldl step s

/-- The relation between pixel and colour that every public operation keeps:
the pixel shows the current colour, or a pulse is marked and the pixel is
white. -/
def ledInv (s : RgbLed) : Prop :=
  s.leds0 = s.colour ∨ (s.inPulse = true ∧ s.leds0 = (255, 255, 255))

/-- The relation between the two flags that every public operation keeps: a
marked pulse implies `idle`. -/
def pulseInv (s : RgbLed) : Prop := s.inPulse = true → s.idle = true

/-- The indices `i < 8` whose bit is set in `mask`, in ascending order. -/
def setBits (mask : Nat) : List Nat :=
  (List.range 8).filter (fun i => mask.testBit i)

/-- The number of set bits of an 8-bit mask. -/
def popCount (mask : Nat) : Nat := (setBits mask).length

/-- The sum of component `c` of `PALETTE[i]` over every set bit `i` of `mask`. -/
def paletteSum (mask c : Nat) : Nat :=
  ((setBits mask).map (fun i => palette i c)).sum

end RgbLed

/-! ## StateHelpers.h -/

namespace StateHelpers

/-- Bitwise complement `~x` of a 32-bit operand (an `int` or `unsigned`
after integral promotion), as the 32-bit pattern of the result. -/
def not32 (x : Nat) : Nat := 4294967295 - u32 x

/-- The local `maskN` of `diActiveMask`, for the input count `DI_COUNT`. -/
def maskN (DI_COUNT : Nat) : Nat :=
  u8 (if DI_COUNT ≥ 8 then 0xFF else sub32 (u32 (1 <<< DI_COUNT)) 1)

/-- The local `validMask` of `setRelaysMaskLocal`, for the relay count
`RELAY_COUNT`. -/
def validMask (RELAY_COUNT : Nat) : Nat :=
  u8 (if RELAY_COUNT ≥ 8 then 0xFF else sub32 (u32 (1 <<< RELAY_COUNT)) 1)

/-- The helper `diRawMaskHigh()`; `raw` is what `readDI_mask()` returns. -/
def diRawMaskHigh (raw : Nat) : Nat := raw

/-- The helper `diActiveMask()`. -/
def diActiveMask (DI_COUNT raw : Nat) : Nat :=
  u8 (not32 (diRawMaskHigh raw) &&& maskN DI_COUNT)

/-- The helper `diRawHigh(idx)`. -/
def diRawHigh (DI_COUNT raw idx : Nat) : Bool :=
  if idx ≥ DI_COUNT then false
  else ((diRawMaskHigh raw >>> idx) &&& 0x1) != 0

/-- The helper `diActive(idx)`. -/
def diActive (DI_COUNT raw idx : Nat) : Bool :=
  if idx ≥ DI_COUNT then false
  else ((diActiveMask DI_COUNT raw >>> idx) &&& 0x1) != 0

/-- The helper `getRelayMask()`; `g_mask` is the global relay mask. -/
def getRelayMask (g_mask : Nat) : Nat := g_mask

/-- The helper `getRelay(idx)`. -/
def getRelay (RELAY_COUNT g_mask idx : Nat) : Bool :=
  if idx ≥ RELAY_COUNT then false
  else ((getRelayMask g_mask >>> idx) &&& 0x1) != 0

/-- The helper `setRelayBit(idx, on)`: the value of `g_mask` after the call. -/
def setRelayBit (RELAY_COUNT g_mask idx : Nat) (enable : Bool) : Nat :=
  if idx ≥ RELAY_COUNT then g_mask
  else if enable then u8 (g_mask ||| u32 (1 <<< idx))
  else u8 (g_mask &&& not32 (u32 (1 <<< idx)))

/-- The helper `setRelaysMaskLocal(mask)`: the value of `g_mask` after the
call; the prior value `_g_mask` is overwritten without being read. -/
def setRelaysMaskLocal (RELAY_COUNT _g_mask mask : Nat) : Nat :=
  u8 (mask &&& validMask RELAY_COUNT)

/-- The mask `validBits(n)`: 0xFF if `n ≥ 8`, and `(1 << n) - 1` otherwise. -/
def validBits (n : Nat) : Nat := if n ≥ 8 then 0xFF else (1 <<< n) - 1

/-- The predicate that every bit of a mask at a position `≥ n` is 0. -/
def highBitsClear (n mask : Nat) : Prop := ∀ i, n ≤ i → mask.testBit i = false

end StateHelpers

/-! ## Helper lemmas -/

namespace RgbLed

set_option maxRecDepth 1000000 in
/-- For every non-zero 8-bit mask the blending loop ends with the unwrapped
palette sums and the number of set bits, that number is not zero, and each
quotient fits in eight bits. -/
theorem blendLoop_table :
    ∀ m ∈ List.range 256, m ≠ 0 →
      blendLoop m = ⟨paletteSum m 0, paletteSum m 1, paletteSum m 2, popCount m⟩ ∧
      popCount m ≠ 0 ∧
      paletteSum m 0 / popCount m < 256 ∧
      paletteSum m 1 / popCount m < 256 ∧
      paletteSum m 2 / popCount m < 256 := by
  decide

theorem fullMask_eq : fullMask = 255 := by decide

/-- The blending branch of `setForMask`, taken when the mask is neither zero
nor full and at least one bit was counted. -/
theorem setForMask_blend (s : RgbLed) (mask : Nat) (h0 : mask ≠ 0)
    (hF : mask ≠ fullMask) (hc : (blendLoop mask).count ≠ 0) :
    setForMask s mask =
      showLed { s with r := u8 ((blendLoop mask).r / (blendLoop mask).count),
                       g := u8 ((blendLoop mask).g / (blendLoop mask).count),
                       b := u8 ((blendLoop mask).b / (blendLoop mask).count),
                       idle := false, inPulse := false } := by
  simp [setForMask, h0, hF, hc]

theorem showLed_synced (s : RgbLed) : (showLed s).leds0 = (showLed s).colour := rfl

theorem setForMask_synced (s : RgbLed) (mask : Nat) :
    (setForMask s mask).leds0 = (setForMask s mask).colour := by
  simp only [setForMask]
  split_ifs <;> rfl

theorem ledInv_step (s : RgbLed) (op : Op) (h : ledInv s) : ledInv (step s op) := by
  cases op with
  | off => exact Or.inl rfl
  | setAllOnWhite => exact Or.inl rfl
  | setForRelay i => exact Or.inl rfl
  | setRGB r g b => exact Or.inl rfl
  | setForMask m => exact Or.inl (setForMask_synced s m)
  | setHeartbeatEnabled enable => exact h
  | tick now now2 =>
    simp only [step, tick]
    split_ifs
    · exact h
    · exact Or.inl rfl
    · exact h
    · exact Or.inr ⟨rfl, rfl⟩
    · exact h

theorem ledInv_run (ops : List Op) : ∀ s : RgbLed, ledInv s → ledInv (run s ops) := by
  induction ops with
  | nil => intro s h; exact h
  | cons op rest ih =>
    intro s h
    exact ih (step s op) (ledInv_step s op h)

end RgbLed

/-! ## The colour commands -/

namespace RgbLed

/-- Claim C1: with relay count 8, for every 8-bit mask other than 0 and 0xFF,
`setForMask` sets each colour component to the truncating quotient of the
palette sum over the set bits by the number of set bits (which is positive),
the quotient fits in eight bits so the narrowing loses nothing, `idle` becomes
false and the colour is rendered.  A mask with the single bit `i` yields
`PALETTE[i]`, and the mask with bits 0 and 6 yields (127,0,127). -/
theorem setForMask_average (s : RgbLed) (mask : Nat)
    (hlt : mask < 256) (h0 : mask ≠ 0) (hF : mask ≠ 255) :
    (setForMask s mask).colour =
        (paletteSum mask 0 / popCount mask,
         paletteSum mask 1 / popCount mask,
         paletteSum mask 2 / popCount mask) ∧
      0 < popCount mask ∧
      (paletteSum mask 0 / popCount mask < 256 ∧
       paletteSum mask 1 / popCount mask < 256 ∧
       paletteSum mask 2 / popCount mask < 256) ∧
      (setForMask s mask).idle = false ∧
      (setForMask s mask).leds0 = (setForMask s mask).colour ∧
      (∀ i < 8, setBits (1 <<< i) = [i] ∧
        (setForMask s (1 <<< i)).colour = (palette i 0, palette i 1, palette i 2) ∧
        (setForMask s (1 <<< i)).leds0 = (palette i 0, palette i 1, palette i 2)) ∧
      (setBits 65 = [0, 6] ∧ (setForMask s 65).colour = (127, 0, 127) ∧
        (setForMask s 65).leds0 = (127, 0, 127)) := by
  have main : ∀ m, m < 256 → m ≠ 0 → m ≠ 255 →
      (setForMask s m).colour =
        (paletteSum m 0 / popCount m, paletteSum m 1 / popCount m,
         paletteSum m 2 / popCount m) ∧
      0 < popCount m ∧
      (paletteSum m 0 / popCount m < 256 ∧ paletteSum m 1 / popCount m < 256 ∧
       paletteSum m 2 / popCount m < 256) ∧
      (setForMask s m).idle = false := by
    intro m hm hm0 hmF
    obtain ⟨hb, hc, hr, hg, hbl⟩ := blendLoop_table m (List.mem_range.2 hm) hm0
    have hF2 : m ≠ fullMask := by rw [fullMask_eq]; exact hmF
    have hcount : (blendLoop m).count ≠ 0 := by rw [hb]; exact hc
    rw [setForMask_blend s m hm0 hF2 hcount, hb]
    refine ⟨?_, Nat.pos_of_ne_zero hc, ⟨hr, hg, hbl⟩, rfl⟩
    simp only [showLed, colour, u8]
    rw [Nat.mod_eq_of_lt hr, Nat.mod_eq_of_lt hg, Nat.mod_eq_of_lt hbl]
  obtain ⟨hcol, hpos, hfit, hidle⟩ := main mask hlt h0 hF
  refine ⟨hcol, hpos, hfit, hidle, setForMask_synced s mask, ?_, ?_⟩
  · intro i hi
    have hsync := setForMask_synced s (1 <<< i)
    interval_cases i
    all_goals
      refine ⟨by decide, ?_⟩
      rw [hsync, and_self]
      rw [(main _ (by decide) (by decide) (by decide)).1]
      decide
  · refine ⟨by decide, ?_⟩
    rw [setForMask_synced s 65, and_self]
    rw [(main 65 (by decide) (by decide) (by decide)).1]
    decide

/-- Witness for claim C1 at the mask with bits 0 and 6, 0x41. -/
theorem setForMask_average_witness :
    ((65 : Nat) < 256 ∧ (65 : Nat) ≠ 0 ∧ (65 : Nat) ≠ 255) ∧
      (setForMask (fresh (0, 0, 0)) 65).colour =
        (paletteSum 65 0 / popCount 65, paletteSum 65 1 / popCount 65,
         paletteSum 65 2 / popCount 65) :=
  ⟨by decide,
   (setForMask_average (fresh (0, 0, 0)) 65 (by decide) (by decide) (by decide)).1⟩

end RgbLed

namespace RgbLed

/-- Claim C2 at its failing input: after `begin()` at clock 0 and
`setForRelay(1)` the controller is not idle; `off()` leaves it not idle, where
the claim and the sibling calls `setRGB(0,0,0)` and `setForMask(0)` make it
idle, so `off()` and `setForMask(0)` give different states.  The heartbeat
then never fires: a tick at the deadline 5000 starts a pulse after
`setRGB(0,0,0)` or `setForMask(0)` and none after `off()`.  Called while a
pulse is marked, `off()` leaves the pulse marked. -/
theorem off_keeps_flags_failing_input :
    (off (run (begin (fresh (0, 0, 0)) 0) [Op.setForRelay 1])).idle = false ∧
      (setRGB (run (begin (fresh (0, 0, 0)) 0) [Op.setForRelay 1]) 0 0 0).idle = true ∧
      (setForMask (run (begin (fresh (0, 0, 0)) 0) [Op.setForRelay 1]) 0).idle = true ∧
      setForMask (run (begin (fresh (0, 0, 0)) 0) [Op.setForRelay 1]) 0 ≠
        off (run (begin (fresh (0, 0, 0)) 0) [Op.setForRelay 1]) ∧
      (run (begin (fresh (0, 0, 0)) 0)
        [Op.setForRelay 1, Op.off, Op.tick 5000 5000]).inPulse = false ∧
      (run (begin (fresh (0, 0, 0)) 0)
        [Op.setForRelay 1, Op.off, Op.tick 5000 5000]).leds0 = (0, 0, 0) ∧
      (run (begin (fresh (0, 0, 0)) 0)
        [Op.setForRelay 1, Op.setRGB 0 0 0, Op.tick 5000 5000]).leds0 = (255, 255, 255) ∧
      (run (begin (fresh (0, 0, 0)) 0)
        [Op.setForRelay 1, Op.setForMask 0, Op.tick 5000 5000]).leds0 = (255, 255, 255) ∧
      (run (begin (fresh (0, 0, 0)) 0) [Op.tick 5000 5000]).inPulse = true ∧
      (off (run (begin (fresh (0, 0, 0)) 0) [Op.tick 5000 5000])).inPulse = true := by
  decide

/-- Claim C3 at its failing input: right after `begin()` at clock 0 the
controller is idle; `setAllOnWhite()` leaves it idle, where the claim and the
sibling calls `setRGB(255,255,255)` and `setForMask(0xFF)` clear `idle`.  The
heartbeat then blanks the white: after a tick at the deadline 5000 and one at
the pulse end 5120 the LED is black, where it stays white after the sibling
calls.  Called while a pulse is marked, `setAllOnWhite()` leaves the pulse
marked. -/
theorem setAllOnWhite_keeps_flags_failing_input :
    (setAllOnWhite (begin (fresh (0, 0, 0)) 0)).idle = true ∧
      (setRGB (begin (fresh (0, 0, 0)) 0) 255 255 255).idle = false ∧
      (setForMask (begin (fresh (0, 0, 0)) 0) 0xFF).idle = false ∧
      (run (begin (fresh (0, 0, 0)) 0)
        [Op.setAllOnWhite, Op.tick 5000 5000, Op.tick 5120 5120]).leds0 = (0, 0, 0) ∧
      (run (begin (fresh (0, 0, 0)) 0)
        [Op.setRGB 255 255 255, Op.tick 5000 5000, Op.tick 5120 5120]).leds0 =
        (255, 255, 255) ∧
      (run (begin (fresh (0, 0, 0)) 0)
        [Op.setForMask 0xFF, Op.tick 5000 5000, Op.tick 5120 5120]).leds0 =
        (255, 255, 255) ∧
      (run (begin (fresh (0, 0, 0)) 0) [Op.tick 5000 5000]).inPulse = true ∧
      (setAllOnWhite (run (begin (fresh (0, 0, 0)) 0) [Op.tick 5000 5000])).inPulse = true ∧
      (setAllOnWhite (run (begin (fresh (0, 0, 0)) 0) [Op.tick 5000 5000])).idle = true := by
  decide

/-- Claim C4: from every prior state `setForMask(0)` yields colour (0,0,0), the
LED rendered black, `idle = true` and `inPulse = false`. -/
theorem setForMask_zero (s : RgbLed) :
    (setForMask s 0).colour = (0, 0, 0) ∧ (setForMask s 0).leds0 = (0, 0, 0) ∧
      (setForMask s 0).idle = true ∧ (setForMask s 0).inPulse = false :=
  ⟨rfl, rfl, rfl, rfl⟩

/-- Claim C5: with relay count 8 the full mask is 0xFF, and from every prior
state `setForMask(0xFF)` yields colour (255,255,255), the LED rendered white,
`idle = false` and `inPulse = false`. -/
theorem setForMask_full (s : RgbLed) :
    fullMask = 0xFF ∧
      (setForMask s 0xFF).colour = (255, 255, 255) ∧
      (setForMask s 0xFF).leds0 = (255, 255, 255) ∧
      (setForMask s 0xFF).idle = false ∧ (setForMask s 0xFF).inPulse = false := by
  have h : setForMask s 0xFF = setAllOnWhite { s with idle := false, inPulse := false } := by
    simp [setForMask, fullMask_eq]
  rw [h]
  exact ⟨fullMask_eq, rfl, rfl, rfl, rfl⟩

end RgbLed

/-! ## The heartbeat -/

namespace RgbLed

/-- Claim C6: when the heartbeat is disabled or the controller is not idle,
`tick` changes nothing, whatever the clock reads: colour, LED, flags and both
deadlines are as before, and so they are after any number of further ticks. -/
theorem tick_noop (s : RgbLed) (now now2 : Nat)
    (h : s.heartbeatEnabled = false ∨ s.idle = false) :
    tick s now now2 = s ∧
      ∀ clocks : List (Nat × Nat),
        clocks.foldl (fun st c => tick st c.1 c.2) s = s := by
  have one : ∀ n n2, tick s n n2 = s := by
    intro n n2
    rcases h with h | h <;> simp [tick, h]
  refine ⟨one now now2, ?_⟩
  intro clocks
  induction clocks with
  | nil => rfl
  | cons c rest ih => rw [List.foldl_cons, one c.1 c.2]; exact ih

/-- Witness for claim C6: a disabled heartbeat, long after the deadline. -/
theorem tick_noop_witness :
    ((setHeartbeatEnabled (begin (fresh (0, 0, 0)) 0) false).heartbeatEnabled = false ∨
        (setHeartbeatEnabled (begin (fresh (0, 0, 0)) 0) false).idle = false) ∧
      tick (setHeartbeatEnabled (begin (fresh (0, 0, 0)) 0) false) 900000 900000 =
        setHeartbeatEnabled (begin (fresh (0, 0, 0)) 0) false :=
  ⟨Or.inl rfl,
   (tick_noop (setHeartbeatEnabled (begin (fresh (0, 0, 0)) 0) false) 900000 900000
      (Or.inl rfl)).1⟩

/-- Claim C7, as stated, fails: after `begin()` at clock 0 the beat is due at
5000; when `tick` reads 5000 and `startHeartbeatPulse_` then reads 5001, the
pulse end is 5121 and not 5000 + 120. -/
theorem tick_pulse_end_counterexample :
    (begin (fresh (0, 0, 0)) 0).heartbeatEnabled = true ∧
      (begin (fresh (0, 0, 0)) 0).idle = true ∧
      (begin (fresh (0, 0, 0)) 0).inPulse = false ∧
      timeReached 5000 (begin (fresh (0, 0, 0)) 0).nextBeatMs = true ∧
      (tick (begin (fresh (0, 0, 0)) 0) 5000 5001).beatOffMs = 5121 ∧
      (tick (begin (fresh (0, 0, 0)) 0) 5000 5001).beatOffMs ≠ (5000 + 120) % 4294967296 := by
  decide

/-- Claim C7, amended: in a state with the heartbeat enabled, idle and not
pulsing, `tick` changes nothing while the clock has not reached `nextBeatMs`;
once it has, `tick` renders the LED white, marks the pulse and sets
`beatOffMs` to the clock value read at the start of the pulse plus 120 (mod
2^32), which is `now + 120` when the clock has not advanced since `tick` read
it; colour, `idle`, `heartbeatEnabled` and `nextBeatMs` are unchanged. -/
theorem tick_starts_pulse (s : RgbLed) (now now2 : Nat)
    (hE : s.heartbeatEnabled = true) (hI : s.idle = true) (hP : s.inPulse = false) :
    (timeReached now s.nextBeatMs = false → tick s now now2 = s) ∧
      (timeReached now s.nextBeatMs = true →
        tick s now now2 =
            { s with leds0 := (255, 255, 255), inPulse := true,
                     beatOffMs := (now2 + 120) % 4294967296 } ∧
          (tick s now now).beatOffMs = (now + 120) % 4294967296) := by
  constructor
  · intro h
    simp [tick, hE, hI, hP, h]
  · intro h
    constructor <;>
      simp [tick, hE, hI, hP, h, startHeartbeatPulse_, u32, HEARTBEAT_PULSE_MS]

/-- Witness for claim C7: the first beat after `begin()` at clock 0. -/
theorem tick_starts_pulse_witness :
    ((begin (fresh (0, 0, 0)) 0).heartbeatEnabled = true ∧
        (begin (fresh (0, 0, 0)) 0).idle = true ∧
        (begin (fresh (0, 0, 0)) 0).inPulse = false ∧
        timeReached 5000 (begin (fresh (0, 0, 0)) 0).nextBeatMs = true) ∧
      tick (begin (fresh (0, 0, 0)) 0) 5000 5001 =
        { begin (fresh (0, 0, 0)) 0 with
          leds0 := (255, 255, 255), inPulse := true, beatOffMs := 5121 } :=
  ⟨by decide,
   ((tick_starts_pulse (begin (fresh (0, 0, 0)) 0) 5000 5001 rfl rfl rfl).2
      (by decide)).1⟩

/-- Claim C8: in a state with the heartbeat enabled, idle and pulsing, `tick`
changes nothing while the clock has not reached `beatOffMs` (a white LED stays
white); once it has, `tick` renders the LED black, clears the pulse flag and
sets `nextBeatMs` to `now + 5000` (mod 2^32), and does not start a new pulse
in the same call. -/
theorem tick_ends_pulse (s : RgbLed) (now now2 : Nat)
    (hE : s.heartbeatEnabled = true) (hI : s.idle = true) (hP : s.inPulse = true) :
    (timeReached now s.beatOffMs = false →
        tick s now now2 = s ∧
          (s.leds0 = (255, 255, 255) → (tick s now now2).leds0 = (255, 255, 255))) ∧
      (timeReached now s.beatOffMs = true →
        tick s now now2 =
            { s with r := 0, g := 0, b := 0, leds0 := (0, 0, 0), inPulse := false,
                     nextBeatMs := (now + 5000) % 4294967296 } ∧
          (tick s now now2).leds0 = (0, 0, 0) ∧
          (tick s now now2).inPulse = false ∧
          (tick s now now2).beatOffMs = s.beatOffMs) := by
  constructor
  · intro h
    have e : tick s now now2 = s := by simp [tick, hE, hI, hP, h]
    exact ⟨e, fun hw => by rw [e]; exact hw⟩
  · intro h
    have e : tick s now now2 =
        { s with r := 0, g := 0, b := 0, leds0 := (0, 0, 0), inPulse := false,
                 nextBeatMs := (now + 5000) % 4294967296 } := by
      simp [tick, hE, hI, hP, h, off, showLed, u32, HEARTBEAT_PERIOD_MS]
    rw [e]
    exact ⟨rfl, rfl, rfl, rfl⟩

/-- Witness for claim C8: the pulse started at clock 5000 ends at 5120. -/
theorem tick_ends_pulse_witness :
    ((tick (begin (fresh (0, 0, 0)) 0) 5000 5000).heartbeatEnabled = true ∧
        (tick (begin (fresh (0, 0, 0)) 0) 5000 5000).idle = true ∧
        (tick (begin (fresh (0, 0, 0)) 0) 5000 5000).inPulse = true ∧
        timeReached 5120 (tick (begin (fresh (0, 0, 0)) 0) 5000 5000).beatOffMs = true) ∧
      (tick (tick (begin (fresh (0, 0, 0)) 0) 5000 5000) 5120 5120).leds0 = (0, 0, 0) ∧
      (tick (tick (begin (fresh (0, 0, 0)) 0) 5000 5000) 5120 5120).nextBeatMs = 10120 :=
  ⟨by decide,
   ((tick_ends_pulse (tick (begin (fresh (0, 0, 0)) 0) 5000 5000) 5120 5120
      (by decide) (by decide) (by decide)).2 (by decide)).2.1,
   by decide⟩

/-- Claim C9: the deadline test of `tick` is correct across overflow of the
32-bit counter: for every schedule time `t` (in particular every 32-bit one),
every delay `p < 2^31` (so for 120 and 5000) and every elapsed time `e < 2^31`, with the deadline `(t + p) mod 2^32` and the clock
`(t + e) mod 2^32`, the test holds exactly when `e ≥ p`. -/
theorem timeReached_wraparound (t p e : Nat)
    (hp : p < 2147483648) (he : e < 2147483648) :
    timeReached (u32 (t + e)) (u32 (t + p)) = true ↔ p ≤ e := by
  simp only [timeReached, sub32, u32, decide_eq_true_eq]
  omega

/-- Witness for claim C9: a beat scheduled 296 ms before the counter wraps,
with period 5000, tested 5000 ms later (after the wrap). -/
theorem timeReached_wraparound_witness :
    ((5000 : Nat) < 2147483648 ∧ (5000 : Nat) < 2147483648) ∧
      (timeReached (u32 (4294967000 + 5000)) (u32 (4294967000 + 5000)) = true ↔
        5000 ≤ 5000) :=
  ⟨by decide, timeReached_wraparound 4294967000 5000 5000 (by decide) (by decide)⟩

/-- Claim C10, as stated, fails: after `begin()` at clock 0 and a `tick` at
clock 5000 the LED shows white while the current colour is still (0,0,0). -/
theorem led_synced_counterexample :
    (run (begin (fresh (0, 0, 0)) 0) [Op.tick 5000 5000]).leds0 = (255, 255, 255) ∧
      (run (begin (fresh (0, 0, 0)) 0) [Op.tick 5000 5000]).colour = (0, 0, 0) ∧
      (run (begin (fresh (0, 0, 0)) 0) [Op.tick 5000 5000]).leds0 ≠
        (run (begin (fresh (0, 0, 0)) 0) [Op.tick 5000 5000]).colour := by
  decide

/-- Claim C10, amended: in every state reachable from the state after
`begin()` by the public operations, the colour last pushed to the LED equals
the current colour, except while a heartbeat pulse is marked, when the LED may
show the white of the pulse instead. -/
theorem led_synced_or_pulse (px : Colour) (t : Nat) (ops : List Op) :
    (run (begin (fresh px) t) ops).leds0 = (run (begin (fresh px) t) ops).colour ∨
      ((run (begin (fresh px) t) ops).inPulse = true ∧
        (run (begin (fresh px) t) ops).leds0 = (255, 255, 255)) :=
  ledInv_run ops (begin (fresh px) t) (Or.inl rfl)

end RgbLed

/-! ## Helper lemmas for the mask helpers -/

namespace StateHelpers

theorem maskN_eq (n : Nat) (h : n ≤ 8) : maskN n = 2 ^ n - 1 := by
  interval_cases n <;> decide

theorem validMask_eq (n : Nat) (h : n ≤ 8) : validMask n = 2 ^ n - 1 := by
  interval_cases n <;> decide

theorem validBits_eq (n : Nat) (h : n ≤ 8) : validBits n = 2 ^ n - 1 := by
  interval_cases n <;> decide

theorem testBit_u8 (x i : Nat) : (u8 x).testBit i = (decide (i < 8) && x.testBit i) := by
  have e : u8 x = x % 2 ^ 8 := rfl
  rw [e, Nat.testBit_mod_two_pow]

theorem testBit_not32 (x i : Nat) (h : x < 4294967296) :
    (not32 x).testBit i = (decide (i < 32) && !x.testBit i) := by
  have e : not32 x = 2 ^ 32 - (x + 1) := by
    simp only [not32, u32]; omega
  rw [e, Nat.testBit_two_pow_sub_succ (by norm_num; exact h)]

/-- The C++ idiom `(x >> i) & 0x1`, read as a `bool`, is bit `i` of `x`. -/
theorem shift_and_one (x i : Nat) : (((x >>> i) &&& 0x1) != 0) = x.testBit i := by
  simp [Nat.testBit, Nat.and_comm]

theorem testBit_byte_high (x i : Nat) (hx : x < 256) (hi : 8 ≤ i) : x.testBit i = false := by
  apply Nat.testBit_lt_two_pow
  calc x < 2 ^ 8 := hx
    _ ≤ 2 ^ i := Nat.pow_le_pow_right (by decide) hi

theorem u32_two_pow (i : Nat) (hi : i < 8) : u32 (1 <<< i) = 2 ^ i := by
  interval_cases i <;> decide

/-- Bit `i` of the active mask: set exactly for `i` below the count with the
raw bit clear. -/
theorem diActiveMask_testBit (n r i : Nat) (hn : n ≤ 8) (hr : r < 256) :
    (diActiveMask n r).testBit i = (decide (i < n) && !r.testBit i) := by
  have hr32 : r < 4294967296 := by omega
  simp only [diActiveMask, diRawMaskHigh, testBit_u8, Nat.testBit_and,
    testBit_not32 r i hr32, maskN_eq n hn, Nat.testBit_two_pow_sub_one]
  by_cases h1 : i < n
  · have h2 : i < 8 := by omega
    have h3 : i < 32 := by omega
    simp [h1, h2, h3]
  · simp [h1]

/-- Bit `j` of the relay mask after `setRelayBit` on an index in range. -/
theorem setRelayBit_testBit (n g idx j : Nat) (enable : Bool) (hn : n ≤ 8)
    (hg : g < 256) (hidx : idx < n) :
    (setRelayBit n g idx enable).testBit j =
      if j = idx then enable else g.testBit j := by
  have hi8 : idx < 8 := by omega
  have hnot : ¬ idx ≥ n := by omega
  have hp : (2 : Nat) ^ idx < 4294967296 := by
    calc (2 : Nat) ^ idx < 2 ^ 32 := Nat.pow_lt_pow_right (by decide) (by omega)
      _ = 4294967296 := by norm_num
  cases enable with
  | true =>
    simp only [setRelayBit, hnot, if_false, if_true, testBit_u8, Nat.testBit_or,
      u32_two_pow idx hi8, Nat.testBit_two_pow]
    by_cases hj : j = idx
    · subst hj; simp [hi8]
    · have hj2 : ¬ idx = j := fun e => hj e.symm
      simp only [hj, hj2, if_false, decide_False, Bool.or_false]
      by_cases h8 : j < 8
      · simp [h8]
      · simp [h8, testBit_byte_high g j hg (by omega)]
  | false =>
    simp only [setRelayBit, hnot, if_false, Bool.false_eq_true, testBit_u8,
      Nat.testBit_and, u32_two_pow idx hi8, testBit_not32 _ j hp, Nat.testBit_two_pow]
    by_cases hj : j = idx
    · subst hj; simp
    · have hj2 : ¬ idx = j := fun e => hj e.symm
      by_cases h8 : j < 8
      · have h32 : j < 32 := by omega
        simp [hj, hj2, h8, h32]
      · simp [hj, h8, testBit_byte_high g j hg (by omega)]

theorem lt_256_of_highBitsClear (n g : Nat) (hn : n ≤ 8) (h : highBitsClear n g) :
    g < 256 := by
  have h2 : g < 2 ^ n := Nat.lt_pow_two_of_testBit g (fun i hi => h i hi)
  calc g < 2 ^ n := h2
    _ ≤ 2 ^ 8 := Nat.pow_le_pow_right (by decide) hn

theorem setRelaysMaskLocal_testBit (n g m i : Nat) (hn : n ≤ 8) :
    (setRelaysMaskLocal n g m).testBit i = (decide (i < n) && m.testBit i) := by
  simp only [setRelaysMaskLocal, testBit_u8, Nat.testBit_and, validMask_eq n hn,
    Nat.testBit_two_pow_sub_one]
  by_cases h1 : i < n
  · have h2 : i < 8 := by omega
    simp [h1, h2]
  · simp [h1]

end StateHelpers

namespace StateHelpers

theorem getRelay_eq (n g j : Nat) :
    getRelay n g j = (decide (j < n) && g.testBit j) := by
  by_cases h : j < n
  · have h2 : ¬ j ≥ n := by omega
    rw [getRelay, if_neg h2, shift_and_one]
    simp [getRelayMask, h]
  · have h2 : j ≥ n := by omega
    simp [getRelay, h, h2]

theorem highBitsClear_of_lt (n g : Nat) (h : g < 2 ^ n) : highBitsClear n g := by
  intro i hi
  apply Nat.testBit_lt_two_pow
  calc g < 2 ^ n := h
    _ ≤ 2 ^ i := Nat.pow_le_pow_right (by decide) hi

end StateHelpers

/-! ## The mask helpers -/

namespace StateHelpers

/-- Claim C14: for every 8-bit raw mask `r` and every input count `n ≤ 8`,
`diActiveMask` returns the 8-bit complement of `r` masked with `validBits n`;
every bit of the result at a position `≥ n` is 0, and at a position `< n` the
result bit is 1 exactly when the raw bit is 0. -/
theorem diActiveMask_spec (n r : Nat) (hn : n ≤ 8) (hr : r < 256) :
    diActiveMask n r = (255 - r) &&& validBits n ∧
      (∀ i, n ≤ i → (diActiveMask n r).testBit i = false) ∧
      (∀ i, i < n → (diActiveMask n r).testBit i = !r.testBit i) := by
  refine ⟨?_, ?_, ?_⟩
  · apply Nat.eq_of_testBit_eq
    intro i
    have e : 255 - r = 2 ^ 8 - (r + 1) := by norm_num; omega
    rw [diActiveMask_testBit n r i hn hr, Nat.testBit_and, e,
      Nat.testBit_two_pow_sub_succ (by norm_num; exact hr), validBits_eq n hn,
      Nat.testBit_two_pow_sub_one]
    by_cases h1 : i < n
    · have h2 : i < 8 := by omega
      simp [h1, h2]
    · simp [h1]
  · intro i hi
    have h1 : ¬ i < n := by omega
    simp [diActiveMask_testBit n r i hn hr, h1]
  · intro i hi
    simp [diActiveMask_testBit n r i hn hr, hi]

/-- Witness for claim C14: four inputs, raw mask 0b11111010. -/
theorem diActiveMask_spec_witness :
    ((4 : Nat) ≤ 8 ∧ (250 : Nat) < 256) ∧
      diActiveMask 4 250 = (255 - 250) &&& validBits 4 ∧ diActiveMask 4 250 = 5 :=
  ⟨by decide, (diActiveMask_spec 4 250 (by decide) (by decide)).1, by decide⟩

/-- Claim C15: `diActive(idx)` returns false when `idx` is at or beyond the
input count and bit `idx` of `diActiveMask()` otherwise; it is a total
function of the count, the raw mask and the index. -/
theorem diActive_spec (n raw idx : Nat) :
    (n ≤ idx → diActive n raw idx = false) ∧
      (idx < n → diActive n raw idx = (diActiveMask n raw).testBit idx) ∧
      diActive n raw idx = (decide (idx < n) && (diActiveMask n raw).testBit idx) := by
  by_cases h : idx < n
  · have h2 : ¬ idx ≥ n := by omega
    have e : diActive n raw idx = (diActiveMask n raw).testBit idx := by
      rw [diActive, if_neg h2, shift_and_one]
    refine ⟨fun h3 => absurd h3 (by omega), fun _ => e, ?_⟩
    simp [e, h]
  · have h2 : idx ≥ n := by omega
    have e : diActive n raw idx = false := by simp [diActive, h2]
    refine ⟨fun _ => e, fun h3 => absurd h3 h, ?_⟩
    simp [e, h]

/-- Witness for claim C15: with the board's eight inputs and raw mask
0b11111010, input 2 is active and index 9 is out of range. -/
theorem diActive_spec_witness :
    (BoardPins.DI_COUNT ≤ 9 ∧ 2 < BoardPins.DI_COUNT) ∧
      diActive BoardPins.DI_COUNT 250 9 = false ∧
      diActive BoardPins.DI_COUNT 250 2 = (diActiveMask BoardPins.DI_COUNT 250).testBit 2 :=
  ⟨by decide,
   (diActive_spec BoardPins.DI_COUNT 250 9).1 (by decide),
   (diActive_spec BoardPins.DI_COUNT 250 2).2.1 (by decide)⟩

/-- Claim C16: for every prior relay mask, every 8-bit value `m` and every
relay count `n ≤ 8`, `setRelaysMaskLocal(m)` followed by `getRelayMask()`
returns `m & validBits(n)`, whatever the prior mask was. -/
theorem setRelaysMaskLocal_getRelayMask (n g m : Nat) (hn : n ≤ 8) (hm : m < 256) :
    getRelayMask (setRelaysMaskLocal n g m) = m &&& validBits n ∧
      ∀ g2, getRelayMask (setRelaysMaskLocal n g2 m) =
        getRelayMask (setRelaysMaskLocal n g m) := by
  refine ⟨?_, fun _ => rfl⟩
  have hle : m &&& validBits n ≤ m := Nat.and_le_left
  simp only [getRelayMask, setRelaysMaskLocal, validMask_eq n hn, u8]
  rw [← validBits_eq n hn]
  exact Nat.mod_eq_of_lt (by omega)

/-- Witness for claim C16: four relays, prior mask 0x0F, value 0xA5. -/
theorem setRelaysMaskLocal_getRelayMask_witness :
    ((4 : Nat) ≤ 8 ∧ (165 : Nat) < 256) ∧
      getRelayMask (setRelaysMaskLocal 4 15 165) = 165 &&& validBits 4 ∧
      getRelayMask (setRelaysMaskLocal 4 15 165) = 5 :=
  ⟨by decide, (setRelaysMaskLocal_getRelayMask 4 15 165 (by decide) (by decide)).1,
   by decide⟩

/-- Claim C17: with relay count `n ≤ 8` and an 8-bit relay mask,
`setRelayBit(idx, on)` leaves the mask unchanged when `idx ≥ n`; when
`idx < n` the new mask has bit `idx` equal to `on` and every other bit as
before, so `getRelay(idx)` then returns `on` and `getRelay(j)` is unchanged
for every `j ≠ idx`. -/
theorem setRelayBit_spec (n g idx : Nat) (enable : Bool) (hn : n ≤ 8) (hg : g < 256) :
    (n ≤ idx → setRelayBit n g idx enable = g) ∧
      (idx < n →
        (setRelayBit n g idx enable).testBit idx = enable ∧
        (∀ j, j ≠ idx → (setRelayBit n g idx enable).testBit j = g.testBit j) ∧
        getRelay n (setRelayBit n g idx enable) idx = enable ∧
        (∀ j, j ≠ idx →
          getRelay n (setRelayBit n g idx enable) j = getRelay n g j)) := by
  constructor
  · intro h
    have h2 : idx ≥ n := h
    simp [setRelayBit, h2]
  · intro h
    have hb := fun j => setRelayBit_testBit n g idx j enable hn hg h
    refine ⟨?_, ?_, ?_, ?_⟩
    · rw [hb idx]; simp
    · intro j hj
      rw [hb j]; simp [hj]
    · rw [getRelay_eq, hb idx]; simp [h]
    · intro j hj
      rw [getRelay_eq, getRelay_eq, hb j]; simp [hj]

/-- Witness for claim C17: eight relays, mask 0b00000101, relay 1 switched on. -/
theorem setRelayBit_spec_witness :
    ((8 : Nat) ≤ 8 ∧ (5 : Nat) < 256 ∧ (1 : Nat) < 8) ∧
      getRelay 8 (setRelayBit 8 5 1 true) 1 = true ∧ setRelayBit 8 5 1 true = 7 :=
  ⟨by decide,
   ((setRelayBit_spec 8 5 1 true (by decide) (by decide)).2 (by decide)).2.2.1,
   by decide⟩

/-- Claim C18: for every relay count `n ≤ 8`, if every bit of the relay mask
at a position `≥ n` is 0 before `setRelayBit(idx, on)`, it is so afterwards,
for any `idx` and `on`; and after `setRelaysMaskLocal(m)` it is so for any `m`
and from any prior mask. -/
theorem highBitsClear_preserved (n g : Nat) (hn : n ≤ 8) :
    (highBitsClear n g →
        ∀ idx enable, highBitsClear n (setRelayBit n g idx enable)) ∧
      (∀ m, highBitsClear n (setRelaysMaskLocal n g m)) := by
  constructor
  · intro h idx enable
    by_cases hidx : idx < n
    · intro i hi
      have hg := lt_256_of_highBitsClear n g hn h
      have hne : i ≠ idx := by omega
      rw [setRelayBit_testBit n g idx i enable hn hg hidx]
      simp [hne, h i hi]
    · have h2 : idx ≥ n := by omega
      have e : setRelayBit n g idx enable = g := by simp [setRelayBit, h2]
      rw [e]; exact h
  · intro m i hi
    have h1 : ¬ i < n := by omega
    simp [setRelaysMaskLocal_testBit n g m i hn, h1]

/-- Witness for claim C18: four relays, mask 0b0101, relay 3 switched on. -/
theorem highBitsClear_preserved_witness :
    ((4 : Nat) ≤ 8 ∧ highBitsClear 4 5) ∧
      highBitsClear 4 (setRelayBit 4 5 3 true) ∧ setRelayBit 4 5 3 true = 13 :=
  ⟨⟨by decide, highBitsClear_of_lt 4 5 (by decide)⟩,
   (highBitsClear_preserved 4 5 (by decide)).1 (highBitsClear_of_lt 4 5 (by decide)) 3 true,
   by decide⟩

end StateHelpers

/-! ## Helper lemmas for the remaining colour and heartbeat claims -/

namespace RgbLed

/-- A tick with the heartbeat disabled returns the state as it is. -/
theorem tick_disabled (s : RgbLed) (now now2 : Nat) (h : s.heartbeatEnabled = false) :
    tick s now now2 = s := by
  simp [tick, h]

/-- Any number of ticks with the heartbeat disabled return the state as it is. -/
theorem ticks_disabled (clocks : List (Nat × Nat)) (s : RgbLed)
    (h : s.heartbeatEnabled = false) :
    clocks.foldl (fun st c => tick st c.1 c.2) s = s := by
  induction clocks with
  | nil => rfl
  | cons c rest ih => rw [List.foldl_cons, tick_disabled s c.1 c.2 h]; exact ih

theorem pulseInv_step (s : RgbLed) (op : Op) (h : pulseInv s) : pulseInv (step s op) := by
  cases op with
  | off => exact h
  | setAllOnWhite => exact h
  | setForRelay i => intro hp; exact absurd hp (by simp [step, setForRelay, showLed])
  | setRGB r g b => intro hp; exact absurd hp (by simp [step, setRGB, showLed])
  | setForMask m =>
    simp only [step, setForMask]
    split_ifs
    · intro _; rfl
    · intro hp; exact absurd hp (by simp [setAllOnWhite, showLed])
    · intro _; rfl
    · intro hp; exact absurd hp (by simp [showLed])
  | setHeartbeatEnabled enable => exact h
  | tick now now2 =>
    simp only [step, tick]
    split_ifs with h1 h2 h3 h4
    · exact h
    · intro hp; exact absurd hp (by simp [off, showLed])
    · exact h
    · intro _
      simp only [Bool.or_eq_true, Bool.not_eq_true', not_or, Bool.not_eq_false] at h1
      exact h1.2
    · exact h

theorem pulseInv_run (ops : List Op) : ∀ s : RgbLed, pulseInv s → pulseInv (run s ops) := by
  induction ops with
  | nil => intro s h; exact h
  | cons op rest ih =>
    intro s h
    exact ih (step s op) (pulseInv_step s op h)

set_option maxRecDepth 1000000 in
/-- For every non-zero 8-bit mask the three averaged components are not all 0. -/
theorem blend_not_black :
    ∀ m ∈ List.range 256, m ≠ 0 →
      ¬ (paletteSum m 0 / popCount m = 0 ∧ paletteSum m 1 / popCount m = 0 ∧
         paletteSum m 2 / popCount m = 0) := by
  decide

/-- The state after `setForMask` for a mask that is neither zero nor full. -/
theorem setForMask_mixed (s : RgbLed) (m : Nat) (hm : m < 256) (h0 : m ≠ 0)
    (hF : m ≠ 255) :
    setForMask s m =
      showLed { s with r := paletteSum m 0 / popCount m,
                       g := paletteSum m 1 / popCount m,
                       b := paletteSum m 2 / popCount m,
                       idle := false, inPulse := false } := by
  obtain ⟨hb, hc, hr, hg, hbl⟩ := blendLoop_table m (List.mem_range.2 hm) h0
  have hF2 : m ≠ fullMask := by rw [fullMask_eq]; exact hF
  have hcount : (blendLoop m).count ≠ 0 := by rw [hb]; exact hc
  rw [setForMask_blend s m h0 hF2 hcount, hb]
  simp only [u8]
  rw [Nat.mod_eq_of_lt hr, Nat.mod_eq_of_lt hg, Nat.mod_eq_of_lt hbl]

end RgbLed

/-! ## The remaining colour and heartbeat claims -/

namespace RgbLed

/-- Claim C11: for every prior state and every `r`, `g`, `b`, `setRGB` sets
the current colour to `(r, g, b)`, renders it, clears the pulse flag, makes
`idle` true exactly when `r = g = b = 0`, and leaves `heartbeatEnabled` and
both deadlines unchanged. -/
theorem setRGB_effect (s : RgbLed) (r g b : Nat) :
    (setRGB s r g b).colour = (r, g, b) ∧
      (setRGB s r g b).leds0 = (r, g, b) ∧
      (setRGB s r g b).inPulse = false ∧
      ((setRGB s r g b).idle = true ↔ (r = 0 ∧ g = 0 ∧ b = 0)) ∧
      (setRGB s r g b).heartbeatEnabled = s.heartbeatEnabled ∧
      (setRGB s r g b).nextBeatMs = s.nextBeatMs ∧
      (setRGB s r g b).beatOffMs = s.beatOffMs := by
  refine ⟨rfl, rfl, rfl, ?_, rfl, rfl, rfl⟩
  simp [setRGB, showLed, and_assoc]

/-- Claim C12: for every prior state and every index, `setForRelay` sets the
current colour to `PALETTE[index & 7]`, an entry of the table, so that `index`
and `index + 8` give the same colour; it renders the colour and clears `idle`
and the pulse flag. -/
theorem setForRelay_effect (s : RgbLed) (index : Nat) :
    (setForRelay s index).colour =
        (palette (index &&& 7) 0, palette (index &&& 7) 1, palette (index &&& 7) 2) ∧
      index &&& 7 < PALETTE.length ∧
      (setForRelay s (index + 8)).colour = (setForRelay s index).colour ∧
      (setForRelay s (u8 (index + 8))).colour = (setForRelay s index).colour ∧
      (setForRelay s index).leds0 = (setForRelay s index).colour ∧
      (setForRelay s index).idle = false ∧
      (setForRelay s index).inPulse = false := by
  have hand : ∀ x : Nat, x &&& 7 = x % 8 := fun x =>
    Nat.and_pow_two_sub_one_eq_mod x 3
  have hlt : index &&& 7 < 8 := by rw [hand]; omega
  have hu : u8 (index &&& 7) = index &&& 7 := by
    simp only [u8]; omega
  have h8 : (index + 8) &&& 7 = index &&& 7 := by rw [hand, hand]; omega
  have h8u : u8 (index + 8) &&& 7 = index &&& 7 := by
    rw [hand, hand]; simp only [u8]; omega
  refine ⟨?_, hlt, ?_, ?_, rfl, rfl, rfl⟩
  · simp only [setForRelay, showLed, colour, hu]
  · simp only [setForRelay, showLed, colour, h8]
  · simp only [setForRelay, showLed, colour, h8u]

/-- Claim C13, as stated, fails: after `begin()` at clock 0 the beat is due at
5000; with the heartbeat disabled, a tick at 6000 and the heartbeat enabled
again, the deadline is still 5000 and the first tick, at clock 900000, starts
a pulse at once. -/
theorem reenable_retroactive_counterexample :
    (begin (fresh (0, 0, 0)) 0).idle = true ∧
      (begin (fresh (0, 0, 0)) 0).inPulse = false ∧
      (run (begin (fresh (0, 0, 0)) 0)
        [Op.setHeartbeatEnabled false, Op.tick 6000 6000,
         Op.setHeartbeatEnabled true]).nextBeatMs = 5000 ∧
      (run (begin (fresh (0, 0, 0)) 0)
        [Op.setHeartbeatEnabled false, Op.tick 6000 6000,
         Op.setHeartbeatEnabled true, Op.tick 900000 900000]).inPulse = true ∧
      (run (begin (fresh (0, 0, 0)) 0)
        [Op.setHeartbeatEnabled false, Op.tick 6000 6000,
         Op.setHeartbeatEnabled true, Op.tick 900000 900000]).leds0 = (255, 255, 255) := by
  decide

/-- Claim C13, amended: `setHeartbeatEnabled` changes only the enable flag.
Starting from an idle, non-pulsing state, after `setHeartbeatEnabled(false)`,
any number of ticks and `setHeartbeatEnabled(true)`, the state is the starting
state with the heartbeat enabled, `nextBeatMs` included, and the first tick
starts a pulse exactly when its clock value has reached that old
`nextBeatMs`. -/
theorem reenable_keeps_deadline (s : RgbLed) (clocks : List (Nat × Nat))
    (now now2 : Nat) (hI : s.idle = true) (hP : s.inPulse = false) :
    setHeartbeatEnabled
        (clocks.foldl (fun st c => tick st c.1 c.2) (setHeartbeatEnabled s false)) true =
        { s with heartbeatEnabled := true } ∧
      (tick (setHeartbeatEnabled
          (clocks.foldl (fun st c => tick st c.1 c.2) (setHeartbeatEnabled s false)) true)
        now now2).inPulse = timeReached now s.nextBeatMs := by
  have e : setHeartbeatEnabled
      (clocks.foldl (fun st c => tick st c.1 c.2) (setHeartbeatEnabled s false)) true =
      { s with heartbeatEnabled := true } := by
    rw [ticks_disabled clocks (setHeartbeatEnabled s false) rfl]
    rfl
  refine ⟨e, ?_⟩
  rw [e]
  cases h : timeReached now s.nextBeatMs <;>
    simp [tick, hI, hP, h, startHeartbeatPulse_]

/-- Witness for claim C13: the state after `begin()` at clock 0, one tick at
6000 while disabled, first tick after re-enabling at 900000. -/
theorem reenable_keeps_deadline_witness :
    ((begin (fresh (0, 0, 0)) 0).idle = true ∧
        (begin (fresh (0, 0, 0)) 0).inPulse = false) ∧
      (tick (setHeartbeatEnabled
          ([((6000 : Nat), (6000 : Nat))].foldl (fun st c => tick st c.1 c.2)
            (setHeartbeatEnabled (begin (fresh (0, 0, 0)) 0) false)) true)
        900000 900000).inPulse =
        timeReached 900000 (begin (fresh (0, 0, 0)) 0).nextBeatMs :=
  ⟨by decide,
   (reenable_keeps_deadline (begin (fresh (0, 0, 0)) 0) [(6000, 6000)] 900000 900000
      rfl rfl).2⟩

/-- Claim C19: in every state reached from an initial state with `idle = true`
(so from the initial state, which has `idle = true` and `inPulse = false`) by
any sequence of the public operations, with any arguments and clock values, a
marked pulse implies `idle`. -/
theorem pulse_implies_idle (s0 : RgbLed) (ops : List Op) (hI : s0.idle = true) :
    (run s0 ops).inPulse = true → (run s0 ops).idle = true :=
  pulseInv_run ops s0 (fun _ => hI)

/-- Witness for claim C19: a pulse started after `begin()`, followed by
`setAllOnWhite()`, which keeps both flags. -/
theorem pulse_implies_idle_witness :
    ((begin (fresh (0, 0, 0)) 0).idle = true ∧
        (begin (fresh (0, 0, 0)) 0).inPulse = false ∧
        (run (begin (fresh (0, 0, 0)) 0)
          [Op.tick 5000 5000, Op.setAllOnWhite]).inPulse = true) ∧
      (run (begin (fresh (0, 0, 0)) 0) [Op.tick 5000 5000, Op.setAllOnWhite]).idle = true :=
  ⟨by decide,
   pulse_implies_idle (begin (fresh (0, 0, 0)) 0) [Op.tick 5000 5000, Op.setAllOnWhite]
     rfl (by decide)⟩

/-- Claim C20: with relay count 8, for every non-zero 8-bit mask `setForMask`
renders a colour other than black and leaves `idle = false`; the LED is black
after `setForMask` exactly when the mask is 0. -/
theorem setForMask_black_iff (s : RgbLed) (mask : Nat) (hlt : mask < 256) :
    (mask ≠ 0 →
        (setForMask s mask).leds0 ≠ (0, 0, 0) ∧ (setForMask s mask).idle = false) ∧
      ((setForMask s mask).leds0 = (0, 0, 0) ↔ mask = 0) := by
  have key : mask ≠ 0 →
      (setForMask s mask).leds0 ≠ (0, 0, 0) ∧ (setForMask s mask).idle = false := by
    intro h0
    by_cases hF : mask = 255
    · subst hF
      have e : setForMask s 255 = setAllOnWhite { s with idle := false, inPulse := false } := by
        simp [setForMask, fullMask_eq]
      rw [e]
      exact ⟨by simp [setAllOnWhite, showLed], rfl⟩
    · rw [setForMask_mixed s mask hlt h0 hF]
      refine ⟨?_, rfl⟩
      intro hb
      simp only [showLed, Prod.mk.injEq] at hb
      exact blend_not_black mask (List.mem_range.2 hlt) h0 hb
  refine ⟨key, ?_⟩
  constructor
  · intro hb
    by_contra h0
    exact (key h0).1 hb
  · intro h0
    subst h0
    rfl

/-- Witness for claim C20: relays 0 and 6 energised. -/
theorem setForMask_black_iff_witness :
    (65 : Nat) < 256 ∧
      ((setForMask (fresh (0, 0, 0)) 65).leds0 = (0, 0, 0) ↔ (65 : Nat) = 0) :=
  ⟨by decide, (setForMask_black_iff (fresh (0, 0, 0)) 65 (by decide)).2⟩

end RgbLed
